import Mathlib

/-!
Shallow embedding of the Air-Aware IoT telemetry system:
the Express/Mongoose backend (`src/air-quality-backend/server.js`) and the
React client's reconciliation logic (`src/unnamed/part_001`, `App.jsx`).

Modelling conventions:
- JavaScript numbers (sensor values, coordinates) are rationals (`ℚ`).
- Points in time (`Date` values) are integers (`Timestamp := Int`,
  milliseconds since epoch).
- A possibly-`undefined` JavaScript value is an `Option`.
- The Mongo collection backing `SensorData` is a `List StoredReading` in
  insertion order; `.find().sort(\x7btimestamp: -1\x7d)` is modelled by a
  stable merge sort with the descending-timestamp comparator.
- HTTP outcomes are `Except ApiError`; `badRequest` is the 400 response,
  `serverError` the 500 response produced by a handler's catch block.
-/

abbrev Timestamp := Int

/-- The nested `location` object of an inbound JSON payload; either
coordinate may be absent (mongoose then applies its per-path default). -/
structure LocPayload where
  latitude : Option ℚ
  longitude : Option ℚ
deriving DecidableEq, Repr

/-- An inbound device payload (`req.body` of `POST /api/arduino`): every
field may be absent. -/
structure SensorPayload where
  temperature : Option ℚ
  humidity : Option ℚ
  vocIndex : Option ℚ
  vocRaw : Option ℚ
  pm1 : Option ℚ
  pm25 : Option ℚ
  pm10 : Option ℚ
  rainfall : Option ℚ
  windSpeed : Option ℚ
  windDirection : Option String
  location : Option LocPayload
  timestamp : Option Timestamp
deriving DecidableEq, Repr

/-- A persisted `SensorData` document: after a successful `save()` every
field of `sensorDataSchema` is populated (required fields were validated,
defaulted fields were filled in). -/
structure StoredReading where
  temperature : ℚ
  humidity : ℚ
  vocIndex : ℚ
  vocRaw : ℚ
  pm1 : ℚ
  pm25 : ℚ
  pm10 : ℚ
  rainfall : ℚ
  windSpeed : ℚ
  windDirection : String
  latitude : ℚ
  longitude : ℚ
  timestamp : Timestamp
deriving DecidableEq, Repr

/-- Default site latitude from `sensorDataSchema` (6.791164). -/
def siteLatitude : ℚ := 6791164 / 1000000

/-- Default site longitude from `sensorDataSchema` (79.900497). -/
def siteLongitude : ℚ := 79900497 / 1000000

/-- Mongoose validation of `sensorDataSchema`'s `required: true` paths:
the nine numeric fields and the `windDirection` string must be present. -/
def requiredFieldsPresent (p : SensorPayload) : Bool :=
  p.temperature.isSome && p.humidity.isSome && p.vocIndex.isSome &&
  p.vocRaw.isSome && p.pm1.isSome && p.pm25.isSome && p.pm10.isSome &&
  p.rainfall.isSome && p.windSpeed.isSome && p.windDirection.isSome

inductive StoreError where
  | validationError
deriving DecidableEq, Repr

/-- The stored form of a valid payload: schema defaults applied —
`location.latitude`/`location.longitude` default per path to the site
coordinate, `timestamp` defaults to the ingest time (`Date.now`). Required
fields are present when `requiredFieldsPresent` holds, so the `getD`
fallbacks on them are unreachable. -/
def applyDefaults (p : SensorPayload) (now : Timestamp) : StoredReading :=
  { temperature := p.temperature.getD 0
    humidity := p.humidity.getD 0
    vocIndex := p.vocIndex.getD 0
    vocRaw := p.vocRaw.getD 0
    pm1 := p.pm1.getD 0
    pm25 := p.pm25.getD 0
    pm10 := p.pm10.getD 0
    rainfall := p.rainfall.getD 0
    windSpeed := p.windSpeed.getD 0
    windDirection := p.windDirection.getD ""
    latitude := (p.location.bind (fun l => l.latitude)).getD siteLatitude
    longitude := (p.location.bind (fun l => l.longitude)).getD siteLongitude
    timestamp := p.timestamp.getD now }

/-- `new SensorData(req.body); await sensorData.save()`: mongoose validates
the required paths; on failure it throws a ValidationError and nothing is
written; on success the defaulted document is appended to the collection. -/
def append (store : List StoredReading) (p : SensorPayload) (now : Timestamp) :
    Except StoreError (List StoredReading × StoredReading) :=
  if requiredFieldsPresent p then
    let r := applyDefaults p now
    .ok (store ++ [r], r)
  else
    .error .validationError

/-- Observable steps of one execution of the `POST /api/arduino` handler. -/
inductive IngestEvent where
  | appendEv (r : StoredReading)
  | broadcastEv (r : StoredReading)
  | ackEv
deriving DecidableEq, Repr

structure IngestOutcome where
  store : List StoredReading
  events : List IngestEvent
  broadcasts : List StoredReading
  success : Bool
deriving DecidableEq, Repr

/-- The `POST /api/arduino` handler: `await sensorData.save()`, then
`io.emit` of the saved document to every connected session, then the
success acknowledgement. A save error is caught: the 500 response is sent
and neither the emit nor the acknowledgement happens. -/
def postArduino (store : List StoredReading) (p : SensorPayload)
    (now : Timestamp) : IngestOutcome :=
  match append store p now with
  | .ok (store', r) =>
      { store := store'
        events := [.appendEv r, .broadcastEv r, .ackEv]
        broadcasts := [r]
        success := true }
  | .error _ =>
      { store := store, events := [], broadcasts := [], success := false }

/-- Comparator of `.sort(\x7btimestamp: -1\x7d)`: descending by timestamp. -/
def tsDescBool (a b : StoredReading) : Bool := b.timestamp ≤ a.timestamp

/-- The collection sorted descending by timestamp (stable). -/
def sortByTimestampDesc (l : List StoredReading) : List StoredReading :=
  l.mergeSort tsDescBool

/-- `SensorData.findOne().sort(\x7btimestamp: -1\x7d)`: the first document in
descending-timestamp order, or none on an empty collection. -/
def latest (store : List StoredReading) : Option StoredReading :=
  (sortByTimestampDesc store).head?

/-- The hard-coded placeholder returned by `GET /api/latest` when the
collection is empty; its timestamp is `new Date()`, the handling time. -/
def defaultReading (now : Timestamp) : StoredReading :=
  { temperature := 25, humidity := 60, vocIndex := 100, vocRaw := 25000
    pm1 := 5, pm25 := 10, pm10 := 15, rainfall := 0, windSpeed := 5 / 2
    windDirection := "N", latitude := siteLatitude, longitude := siteLongitude
    timestamp := now }

/-- The `GET /api/latest` handler: the latest stored reading, or the
default placeholder when the store is empty. -/
def apiLatest (store : List StoredReading) (now : Timestamp) : StoredReading :=
  match latest store with
  | some r => r
  | none => defaultReading now

inductive ApiError where
  | badRequest
  | serverError
deriving DecidableEq, Repr

/-- A query-string date bound: `none` = absent (or empty, falsy in JS);
`some none` = present but unparsable (`new Date(s)` is an Invalid Date);
`some (some t)` = parses to time `t`. -/
abbrev DateParam := Option (Option Timestamp)

/-- The `GET /api/data/range` handler. The explicit guard rejects only an
absent bound with 400. A present but unparsable bound reaches the query as
an Invalid Date; mongoose's date cast throws on it, the catch block turns
that into the 500 response. With two parsed bounds the handler returns the
readings with `start ≤ timestamp ≤ end`, descending by timestamp. -/
def apiDataRange (store : List StoredReading) (startDate endDate : DateParam) :
    Except ApiError (List StoredReading) :=
  match startDate, endDate with
  | none, _ => .error .badRequest
  | _, none => .error .badRequest
  | some s, some e =>
    match s, e with
    | some s', some e' =>
        .ok (sortByTimestampDesc (store.filter
          (fun r => decide (s' ≤ r.timestamp) && decide (r.timestamp ≤ e'))))
    | _, _ => .error .serverError

/-- `parseInt(q) || d`: `none` models `NaN` (absent or non-numeric query
parameter); a parsed `0` is falsy and also falls back to the default. -/
def jsOrInt (x : Option Int) (d : Int) : Int :=
  match x with
  | none => d
  | some v => if v = 0 then d else v

structure PageResult where
  data : List StoredReading
  page : Int
  limit : Int
  total : Nat
  pages : Int
deriving DecidableEq, Repr

/-- The `GET /api/data` handler: `page = parseInt(req.query.page) || 1`,
`limit = parseInt(req.query.limit) || 50`, `skip = (page-1)*limit`, then
`.find().sort(\x7btimestamp: -1\x7d).skip(skip).limit(limit)`. A negative skip
is rejected by MongoDB and surfaces as the 500 response; a negative limit
means "at most that many documents" (absolute value) in MongoDB.
`pages` is `Math.ceil(total / limit)`. -/
def apiData (store : List StoredReading) (pageRaw limitRaw : Option Int) :
    Except ApiError PageResult :=
  let page := jsOrInt pageRaw 1
  let limit := jsOrInt limitRaw 50
  let skip := (page - 1) * limit
  if skip < 0 then .error .serverError
  else
    .ok { data := ((sortByTimestampDesc store).drop skip.toNat).take limit.natAbs
          page := page
          limit := limit
          total := store.length
          pages := ⌈(store.length : ℚ) / (limit : ℚ)⌉ }

/-! ## Client-side state (React `App` component) -/

/-- The `currentLocation` state object of the React component. -/
structure CurrentLocationState where
  latitude : ℚ
  longitude : ℚ
  temperature : ℚ
  humidity : ℚ
  voc : ℚ
  pm25 : ℚ
  pm10 : ℚ
  pm1 : ℚ
  rainfall : ℚ
  windSpeed : ℚ
  windDirection : String
deriving DecidableEq, Repr

/-- The client's Current View: `currentLocation` plus the `lastUpdate`
state (`none` models both the initial `null` and an Invalid Date produced
by `new Date(undefined)`). -/
structure ClientState where
  currentLocation : CurrentLocationState
  lastUpdate : Option Timestamp
deriving DecidableEq, Repr

/-- A JSON object arriving at `updateLocationData` (socket `sensor-data`
event or the `GET /api/latest` response body); any field may be absent. -/
structure PushedData where
  temperature : Option ℚ
  humidity : Option ℚ
  vocIndex : Option ℚ
  pm25 : Option ℚ
  pm10 : Option ℚ
  pm1 : Option ℚ
  rainfall : Option ℚ
  windSpeed : Option ℚ
  windDirection : Option String
  location : Option LocPayload
  timestamp : Option Timestamp
deriving DecidableEq, Repr

/-- JS `x || d` on a possibly-absent number: absent and `0` are falsy. -/
def jsOrQ (x : Option ℚ) (d : ℚ) : ℚ :=
  match x with
  | none => d
  | some v => if v = 0 then d else v

/-- JS `x || d` on a possibly-absent string: absent and `""` are falsy. -/
def jsOrStr (x : Option String) (d : String) : String :=
  match x with
  | none => d
  | some s => if s = "" then d else s

/-- `updateLocationData(data)`: if `data` is truthy and `data.temperature`
is not `undefined`, replace `currentLocation` wholesale with the incoming
fields (falsy fields fall back to their defaults) and set `lastUpdate` to
`new Date(data.timestamp)`; otherwise leave both untouched. There is no
timestamp comparison anywhere in this function. -/
def updateLocationData (s : ClientState) (data : Option PushedData) : ClientState :=
  match data with
  | none => s
  | some d =>
    if d.temperature.isSome then
      { currentLocation :=
          { latitude := jsOrQ (d.location.bind (fun l => l.latitude)) siteLatitude
            longitude := jsOrQ (d.location.bind (fun l => l.longitude)) siteLongitude
            temperature := jsOrQ d.temperature 0
            humidity := jsOrQ d.humidity 0
            voc := jsOrQ d.vocIndex 0
            pm25 := jsOrQ d.pm25 0
            pm10 := jsOrQ d.pm10 0
            pm1 := jsOrQ d.pm1 0
            rainfall := jsOrQ d.rainfall 0
            windSpeed := jsOrQ d.windSpeed 0
            windDirection := jsOrStr d.windDirection "Unknown" }
        lastUpdate := d.timestamp }
    else s

/-- `calculateAQI(pm25)`: six labels bracketed by the fixed thresholds. -/
def calculateAQI (pm25 : ℚ) : String :=
  if pm25 ≤ 12 then "Good"
  else if pm25 ≤ 354 / 10 then "Moderate"
  else if pm25 ≤ 554 / 10 then "Unhealthy for Sensitive Groups"
  else if pm25 ≤ 1504 / 10 then "Unhealthy"
  else if pm25 ≤ 2504 / 10 then "Very Unhealthy"
  else "Hazardous"

/-- Severity rank of an AQI label, `Good` least severe. -/
def aqiSeverity (label : String) : Nat :=
  if label = "Good" then 0
  else if label = "Moderate" then 1
  else if label = "Unhealthy for Sensitive Groups" then 2
  else if label = "Unhealthy" then 3
  else if label = "Very Unhealthy" then 4
  else 5

/-! ## Sample data used by witnesses and counterexamples -/

/-- The React component's initial `currentLocation`/`lastUpdate` state. -/
def initialView : ClientState :=
  { currentLocation :=
      { latitude := siteLatitude, longitude := siteLongitude
        temperature := 0, humidity := 0, voc := 0, pm25 := 0, pm10 := 0
        pm1 := 0, rainfall := 0, windSpeed := 0, windDirection := "Unknown" }
    lastUpdate := none }

/-- A client state whose Current View was last updated at time 100. -/
def staleView : ClientState :=
  { currentLocation :=
      { latitude := siteLatitude, longitude := siteLongitude
        temperature := 20, humidity := 50, voc := 100, pm25 := 8, pm10 := 12
        pm1 := 3, rainfall := 0, windSpeed := 2, windDirection := "N" }
    lastUpdate := some 100 }

/-- A well-formed pushed reading carrying the older timestamp 50. -/
def stalePush : PushedData :=
  { temperature := some 30, humidity := some 40, vocIndex := some 90
    pm25 := some 5, pm10 := some 9, pm1 := some 2, rainfall := some 0
    windSpeed := some 1, windDirection := some "E", location := none
    timestamp := some 50 }

/-- A malformed pushed object: its `temperature` field is absent. -/
def badPush : PushedData :=
  { temperature := none, humidity := some 40, vocIndex := some 90
    pm25 := some 5, pm10 := some 9, pm1 := some 2, rainfall := some 0
    windSpeed := some 1, windDirection := some "E", location := none
    timestamp := some 7 }

/-! ## Client-side claims -/

/-- C1 counterexample: a Current View last updated at time 100 receives a
well-formed reading with the older timestamp 50; the merge nevertheless
replaces the view, and the last-update time regresses from 100 to 50 — the
claimed timestamp monotonicity fails. -/
theorem C1_counterexample :
    updateLocationData staleView (some stalePush) ≠ staleView ∧
    (updateLocationData staleView (some stalePush)).lastUpdate = some 50 ∧
    staleView.lastUpdate = some 100 ∧ (50 : Timestamp) ≤ 100 := by
  refine ⟨?_, rfl, rfl, by norm_num⟩
  simp [updateLocationData, staleView, stalePush, jsOrQ, jsOrStr]

/-- C1 (amended): the merge is not timestamp-guarded. For every incoming
object with a defined `temperature`, `updateLocationData` replaces the
Current View unconditionally: the result does not depend on the prior view
at all, and the last-update time becomes the incoming reading's timestamp
even when that is older. -/
theorem C1_merge_unconditional (s s' : ClientState) (d : PushedData)
    (h : d.temperature.isSome = true) :
    updateLocationData s (some d) = updateLocationData s' (some d) ∧
    (updateLocationData s (some d)).lastUpdate = d.timestamp := by
  simp [updateLocationData, h]

/-- Witness for C1 (amended) at the concrete stale-push instance. -/
theorem C1_merge_unconditional_witness :
    stalePush.temperature.isSome = true ∧
    (updateLocationData staleView (some stalePush) =
        updateLocationData initialView (some stalePush) ∧
      (updateLocationData staleView (some stalePush)).lastUpdate =
        stalePush.timestamp) :=
  ⟨rfl, C1_merge_unconditional staleView initialView stalePush rfl⟩

/-- C7: the Reconciler merge is idempotent — applying the same incoming
value twice in succession yields the same Current View as applying it
once (the merge either ignores the input or overwrites the whole view
with data derived from the input alone). -/
theorem C7_merge_idempotent (s : ClientState) (d : Option PushedData) :
    updateLocationData (updateLocationData s d) d = updateLocationData s d := by
  cases d with
  | none => rfl
  | some p =>
    by_cases h : p.temperature.isSome = true <;> simp [updateLocationData, h]

/-- C10: malformed input is silently dropped — if the incoming value is
null/undefined or lacks a defined `temperature` field, the Current View
and the last-update timestamp are completely unchanged. -/
theorem C10_malformed_input_ignored (s : ClientState) (d : Option PushedData)
    (h : d = none ∨ ∃ p, d = some p ∧ p.temperature = none) :
    updateLocationData s d = s := by
  rcases h with h | ⟨p, rfl, hp⟩
  · subst h; rfl
  · simp [updateLocationData, hp]

/-- Witness for C10 at the concrete temperature-less push. -/
theorem C10_malformed_input_ignored_witness :
    (some badPush = none ∨ ∃ p, some badPush = some p ∧ p.temperature = none) ∧
    updateLocationData staleView (some badPush) = staleView :=
  ⟨Or.inr ⟨badPush, rfl, rfl⟩,
    C10_malformed_input_ignored staleView (some badPush)
      (Or.inr ⟨badPush, rfl, rfl⟩)⟩

/-- `aqiSeverity ∘ calculateAQI` as a single numeric bracket function. -/
lemma aqiSeverity_calculateAQI (x : ℚ) :
    aqiSeverity (calculateAQI x) =
      if x ≤ 12 then 0 else if x ≤ 354 / 10 then 1
      else if x ≤ 554 / 10 then 2 else if x ≤ 1504 / 10 then 3
      else if x ≤ 2504 / 10 then 4 else 5 := by
  unfold calculateAQI
  split_ifs <;> decide

/-- C9: `calculateAQI` is total and monotone — every PM2.5 value gets
exactly the label determined by the thresholds 12, 35.4, 55.4, 150.4,
250.4, and a larger PM2.5 value never gets a strictly less severe label. -/
theorem C9_calculateAQI_total_monotone :
    (∀ x : ℚ,
      (calculateAQI x = "Good" ↔ x ≤ 12) ∧
      (calculateAQI x = "Moderate" ↔ 12 < x ∧ x ≤ 354 / 10) ∧
      (calculateAQI x = "Unhealthy for Sensitive Groups" ↔
        354 / 10 < x ∧ x ≤ 554 / 10) ∧
      (calculateAQI x = "Unhealthy" ↔ 554 / 10 < x ∧ x ≤ 1504 / 10) ∧
      (calculateAQI x = "Very Unhealthy" ↔ 1504 / 10 < x ∧ x ≤ 2504 / 10) ∧
      (calculateAQI x = "Hazardous" ↔ 2504 / 10 < x)) ∧
    (∀ x y : ℚ, x ≤ y →
      aqiSeverity (calculateAQI x) ≤ aqiSeverity (calculateAQI y)) := by
  constructor
  · intro x
    unfold calculateAQI
    split_ifs <;>
      refine ⟨?_, ?_, ?_, ?_, ?_, ?_⟩ <;>
        simp only [String.reduceEq, true_iff, false_iff, iff_true, iff_false,
          not_and, not_lt, not_le] <;>
      first
        | linarith
        | (constructor <;> linarith)
        | (intro h; linarith)
  · intro x y hxy
    rw [aqiSeverity_calculateAQI, aqiSeverity_calculateAQI]
    split_ifs <;> first | omega | linarith

/-! ## Backend sample data -/

/-- A stored reading with timestamp 100. -/
def storedA : StoredReading :=
  { temperature := 20, humidity := 50, vocIndex := 100, vocRaw := 24000
    pm1 := 4, pm25 := 9, pm10 := 14, rainfall := 0, windSpeed := 2
    windDirection := "N", latitude := siteLatitude, longitude := siteLongitude
    timestamp := 100 }

/-- A stored reading with timestamp 200. -/
def storedB : StoredReading :=
  { temperature := 22, humidity := 55, vocIndex := 110, vocRaw := 26000
    pm1 := 6, pm25 := 11, pm10 := 16, rainfall := 1, windSpeed := 3
    windDirection := "E", latitude := siteLatitude, longitude := siteLongitude
    timestamp := 200 }

/-- A two-reading collection, already in descending timestamp order. -/
def sampleStore : List StoredReading := [storedB, storedA]

/-- The spec's end-to-end scenario payload (temperature 25.5, humidity 60,
…, windDirection "N"), with no location and no timestamp. -/
def validPayload : SensorPayload :=
  { temperature := some (51 / 2), humidity := some 60, vocIndex := some 100
    vocRaw := some 25000, pm1 := some 5, pm25 := some 10, pm10 := some 15
    rainfall := some 0, windSpeed := some (5 / 2), windDirection := some "N"
    location := none, timestamp := none }

/-- The scenario payload with its required `humidity` field missing. -/
def payloadMissingHumidity : SensorPayload :=
  { validPayload with humidity := none }

/-! ## Ingest claims -/

/-- C2: a rejected ingest is atomic — for a payload missing any required
numeric field, the handler reports failure, the store (hence its count) is
exactly as before, and nothing is broadcast to any session. -/
theorem C2_rejected_ingest_atomic (store : List StoredReading)
    (p : SensorPayload) (now : Timestamp)
    (h : p.temperature = none ∨ p.humidity = none ∨ p.vocIndex = none ∨
      p.vocRaw = none ∨ p.pm1 = none ∨ p.pm25 = none ∨ p.pm10 = none ∨
      p.rainfall = none ∨ p.windSpeed = none) :
    (postArduino store p now).success = false ∧
    (postArduino store p now).store = store ∧
    (postArduino store p now).store.length = store.length ∧
    (postArduino store p now).broadcasts = [] := by
  have hreq : requiredFieldsPresent p = false := by
    rcases h with h | h | h | h | h | h | h | h | h <;>
      simp [requiredFieldsPresent, h]
  simp [postArduino, append, hreq]

/-- Witness for C2: the scenario payload missing `humidity` is rejected
atomically against the two-reading sample store. -/
theorem C2_rejected_ingest_atomic_witness :
    (payloadMissingHumidity.temperature = none ∨
      payloadMissingHumidity.humidity = none ∨
      payloadMissingHumidity.vocIndex = none ∨
      payloadMissingHumidity.vocRaw = none ∨
      payloadMissingHumidity.pm1 = none ∨
      payloadMissingHumidity.pm25 = none ∨
      payloadMissingHumidity.pm10 = none ∨
      payloadMissingHumidity.rainfall = none ∨
      payloadMissingHumidity.windSpeed = none) ∧
    ((postArduino sampleStore payloadMissingHumidity 300).success = false ∧
      (postArduino sampleStore payloadMissingHumidity 300).store = sampleStore ∧
      (postArduino sampleStore payloadMissingHumidity 300).store.length =
        sampleStore.length ∧
      (postArduino sampleStore payloadMissingHumidity 300).broadcasts = []) :=
  ⟨Or.inr (Or.inl rfl),
    C2_rejected_ingest_atomic sampleStore payloadMissingHumidity 300
      (Or.inr (Or.inl rfl))⟩

/-- C3: the handler never broadcasts a reading that was not durably
persisted — whenever a broadcast of `r` occurs, the execution trace is
exactly append-of-`r`, then broadcast-of-`r`, then the acknowledgement,
and the store ends with `r` appended; the broadcast payload is the stored
reading itself. -/
theorem C3_broadcast_only_after_persist (store : List StoredReading)
    (p : SensorPayload) (now : Timestamp) (r : StoredReading)
    (h : IngestEvent.broadcastEv r ∈ (postArduino store p now).events) :
    (postArduino store p now).events =
      [.appendEv r, .broadcastEv r, .ackEv] ∧
    (postArduino store p now).store = store ++ [r] ∧
    (postArduino store p now).broadcasts = [r] := by
  by_cases hreq : requiredFieldsPresent p = true
  · simp only [postArduino, append, hreq, if_pos] at h ⊢
    simp only [List.mem_cons, List.not_mem_nil, or_false] at h
    rcases h with h | h | h
    · exact absurd h (by simp)
    · have : r = applyDefaults p now := by
        injection h
      subst this
      simp
    · exact absurd h (by simp)
  · simp only [Bool.not_eq_true] at hreq
    simp [postArduino, append, hreq] at h

/-- Witness for C3: the scenario payload's broadcast is preceded by its
persistence in the concrete execution. -/
theorem C3_broadcast_only_after_persist_witness :
    IngestEvent.broadcastEv (applyDefaults validPayload 500) ∈
      (postArduino sampleStore validPayload 500).events ∧
    ((postArduino sampleStore validPayload 500).events =
        [.appendEv (applyDefaults validPayload 500),
         .broadcastEv (applyDefaults validPayload 500), .ackEv] ∧
      (postArduino sampleStore validPayload 500).store =
        sampleStore ++ [applyDefaults validPayload 500] ∧
      (postArduino sampleStore validPayload 500).broadcasts =
        [applyDefaults validPayload 500]) := by
  have hmem : IngestEvent.broadcastEv (applyDefaults validPayload 500) ∈
      (postArduino sampleStore validPayload 500).events := by
    simp [postArduino, append, requiredFieldsPresent, validPayload]
  exact ⟨hmem,
    C3_broadcast_only_after_persist sampleStore validPayload 500 _ hmem⟩

/-- C8: for every payload accepted by `append`, an omitted timestamp is
replaced by the ingest time, an omitted location by the fixed site
coordinate (6.791164, 79.900497), and every supplied field is stored
exactly as given. -/
theorem C8_append_defaults (store : List StoredReading) (p : SensorPayload)
    (now : Timestamp) (h : requiredFieldsPresent p = true) :
    ∃ r, append store p now = .ok (store ++ [r], r) ∧
      (p.timestamp = none → r.timestamp = now) ∧
      (∀ t, p.timestamp = some t → r.timestamp = t) ∧
      (p.location = none →
        r.latitude = 6791164 / 1000000 ∧ r.longitude = 79900497 / 1000000) ∧
      (∀ v, p.temperature = some v → r.temperature = v) ∧
      (∀ v, p.humidity = some v → r.humidity = v) ∧
      (∀ v, p.vocIndex = some v → r.vocIndex = v) ∧
      (∀ v, p.vocRaw = some v → r.vocRaw = v) ∧
      (∀ v, p.pm1 = some v → r.pm1 = v) ∧
      (∀ v, p.pm25 = some v → r.pm25 = v) ∧
      (∀ v, p.pm10 = some v → r.pm10 = v) ∧
      (∀ v, p.rainfall = some v → r.rainfall = v) ∧
      (∀ v, p.windSpeed = some v → r.windSpeed = v) ∧
      (∀ w, p.windDirection = some w → r.windDirection = w) := by
  refine ⟨applyDefaults p now, by simp [append, h], ?_, ?_, ?_, ?_, ?_, ?_,
    ?_, ?_, ?_, ?_, ?_, ?_, ?_⟩ <;>
    first
      | (intro ht
         simp [applyDefaults, ht, siteLatitude, siteLongitude])
      | (intro v hv
         simp [applyDefaults, hv])

/-- Witness for C8 at the scenario payload (no timestamp, no location)
ingested at time 500. -/
theorem C8_append_defaults_witness :
    requiredFieldsPresent validPayload = true ∧
    ∃ r, append sampleStore validPayload 500 = .ok (sampleStore ++ [r], r) ∧
      (validPayload.timestamp = none → r.timestamp = 500) ∧
      (∀ t, validPayload.timestamp = some t → r.timestamp = t) ∧
      (validPayload.location = none →
        r.latitude = 6791164 / 1000000 ∧ r.longitude = 79900497 / 1000000) ∧
      (∀ v, validPayload.temperature = some v → r.temperature = v) ∧
      (∀ v, validPayload.humidity = some v → r.humidity = v) ∧
      (∀ v, validPayload.vocIndex = some v → r.vocIndex = v) ∧
      (∀ v, validPayload.vocRaw = some v → r.vocRaw = v) ∧
      (∀ v, validPayload.pm1 = some v → r.pm1 = v) ∧
      (∀ v, validPayload.pm25 = some v → r.pm25 = v) ∧
      (∀ v, validPayload.pm10 = some v → r.pm10 = v) ∧
      (∀ v, validPayload.rainfall = some v → r.rainfall = v) ∧
      (∀ v, validPayload.windSpeed = some v → r.windSpeed = v) ∧
      (∀ w, validPayload.windDirection = some w → r.windDirection = w) :=
  ⟨rfl, C8_append_defaults sampleStore validPayload 500 rfl⟩

/-! ## Sortedness facts about the descending-timestamp sort -/

lemma sortByTimestampDesc_perm (l : List StoredReading) :
    List.Perm (sortByTimestampDesc l) l :=
  List.mergeSort_perm l tsDescBool

lemma mem_sortByTimestampDesc {r : StoredReading} {l : List StoredReading} :
    r ∈ sortByTimestampDesc l ↔ r ∈ l :=
  List.mem_mergeSort

lemma sortByTimestampDesc_nil : sortByTimestampDesc [] = [] := by
  unfold sortByTimestampDesc
  exact List.mergeSort_nil

lemma tsDescBool_trans (a b c : StoredReading) (hab : tsDescBool a b)
    (hbc : tsDescBool b c) : tsDescBool a c := by
  simp only [tsDescBool, decide_eq_true_eq] at hab hbc ⊢
  exact le_trans hbc hab

lemma tsDescBool_total (a b : StoredReading) :
    tsDescBool a b || tsDescBool b a := by
  simp only [tsDescBool, Bool.or_eq_true, decide_eq_true_eq]
  exact le_total b.timestamp a.timestamp

lemma pairwise_sortByTimestampDesc (l : List StoredReading) :
    (sortByTimestampDesc l).Pairwise
      (fun a b => b.timestamp ≤ a.timestamp) := by
  have h := List.sorted_mergeSort tsDescBool_trans tsDescBool_total l
  refine List.Pairwise.imp ?_ h
  intro a b hab
  simpa [tsDescBool] using hab

/-! ## Query claims -/

/-- C4: `latest` is none exactly on the empty store and otherwise returns
a stored reading of maximal timestamp; `GET /api/latest` returns that
reading, or the default placeholder when the store is empty. -/
theorem C4_latest_max_timestamp (store : List StoredReading) (now : Timestamp) :
    (latest store = none ↔ store = []) ∧
    (∀ r, latest store = some r →
      r ∈ store ∧ ∀ r' ∈ store, r'.timestamp ≤ r.timestamp) ∧
    (store = [] → apiLatest store now = defaultReading now) ∧
    (∀ r, latest store = some r → apiLatest store now = r) := by
  refine ⟨?_, ?_, ?_, ?_⟩
  · unfold latest
    rw [List.head?_eq_none_iff]
    constructor
    · intro h
      have hp := sortByTimestampDesc_perm store
      rw [h] at hp
      exact hp.symm.eq_nil
    · intro h
      subst h
      exact sortByTimestampDesc_nil
  · intro r h
    unfold latest at h
    rw [List.head?_eq_some_iff] at h
    obtain ⟨t, ht⟩ := h
    have hmem : r ∈ store := by
      rw [← mem_sortByTimestampDesc (l := store), ht]
      exact List.mem_cons_self r t
    refine ⟨hmem, fun r' hr' => ?_⟩
    have hr's : r' ∈ sortByTimestampDesc store :=
      mem_sortByTimestampDesc.mpr hr'
    rw [ht] at hr's
    rcases List.mem_cons.mp hr's with h | h
    · subst h
      exact le_refl _
    · have hp := pairwise_sortByTimestampDesc store
      rw [ht] at hp
      exact List.rel_of_pairwise_cons hp h
  · intro h
    subst h
    unfold apiLatest latest
    rw [sortByTimestampDesc_nil]
    rfl
  · intro r h
    unfold apiLatest
    rw [h]

/-- Witness for C4 on the concrete two-reading store: `latest` picks the
timestamp-200 reading, the endpoint returns it, and the empty store falls
back to the placeholder. -/
theorem C4_latest_max_timestamp_witness :
    latest sampleStore = some storedB ∧
    (storedB ∈ sampleStore ∧
      ∀ r' ∈ sampleStore, r'.timestamp ≤ storedB.timestamp) ∧
    apiLatest sampleStore 999 = storedB ∧
    apiLatest [] 7 = defaultReading 7 := by
  have hl : latest sampleStore = some storedB := by
    unfold latest sortByTimestampDesc
    rw [List.mergeSort_of_sorted (by decide)]
    rfl
  exact ⟨hl, (C4_latest_max_timestamp sampleStore 999).2.1 storedB hl,
    (C4_latest_max_timestamp sampleStore 999).2.2.2 storedB hl,
    (C4_latest_max_timestamp [] 7).2.2.1 rfl⟩

/-- C5 counterexample: a range request whose `start` is present but
unparsable is not rejected with the 400 validation response — it produces
the 500 server error instead, refuting "fails with a ValidationError
(400-class) whenever either bound is absent or unparsable". -/
theorem C5_counterexample :
    apiDataRange sampleStore (some none) (some (some 150)) =
      .error .serverError ∧
    (Except.error ApiError.serverError :
        Except ApiError (List StoredReading)) ≠
      .error .badRequest :=
  ⟨rfl, by simp⟩

/-- C5 (amended): the range query returns the 400 validation error exactly
when a bound is absent; a present but unparsable bound yields the 500
server error instead; and with two parsed bounds it returns exactly the
stored readings with `start ≤ timestamp ≤ end`, descending by timestamp. -/
theorem C5_queryRange (store : List StoredReading) (s e : DateParam) :
    (s = none ∨ e = none → apiDataRange store s e = .error .badRequest) ∧
    (s ≠ none → e ≠ none → s = some none ∨ e = some none →
      apiDataRange store s e = .error .serverError) ∧
    (∀ ts te, s = some (some ts) → e = some (some te) →
      ∃ out, apiDataRange store s e = .ok out ∧
        (∀ r, r ∈ out ↔ r ∈ store ∧ ts ≤ r.timestamp ∧ r.timestamp ≤ te) ∧
        out.Pairwise (fun a b => b.timestamp ≤ a.timestamp)) := by
  refine ⟨?_, ?_, ?_⟩
  · rintro (h | h) <;> subst h
    · cases e <;> rfl
    · cases s <;> rfl
  · intro hs he h
    match s, e with
    | some none, some _ => rfl
    | some (some _), some none => rfl
    | some (some _), some (some _) =>
        rcases h with h | h <;> simp at h
    | none, _ => exact absurd rfl hs
    | some _, none => exact absurd rfl he
  · intro ts te hs he
    subst hs
    subst he
    refine ⟨_, rfl, fun r => ?_, pairwise_sortByTimestampDesc _⟩
    rw [mem_sortByTimestampDesc, List.mem_filter]
    simp

/-- Witness for C5 (amended): a missing bound gives 400, and the parsed
range [50, 150] over the sample store behaves as specified. -/
theorem C5_queryRange_witness :
    ((none : DateParam) = none ∨ (some (some 150) : DateParam) = none) ∧
    apiDataRange sampleStore none (some (some 150)) = .error .badRequest ∧
    (∃ out, apiDataRange sampleStore (some (some 50)) (some (some 150)) =
        .ok out ∧
      (∀ r, r ∈ out ↔
        r ∈ sampleStore ∧ 50 ≤ r.timestamp ∧ r.timestamp ≤ 150) ∧
      out.Pairwise (fun a b => b.timestamp ≤ a.timestamp)) := by
  refine ⟨Or.inl rfl,
    (C5_queryRange sampleStore none (some (some 150))).1 (Or.inl rfl), ?_⟩
  exact (C5_queryRange sampleStore (some (some 50)) (some (some 150))).2.2
    50 150 rfl rfl

/-- Concatenating successive `k`-sized pages of `xs` yields the first
`n * k` elements of `xs`. -/
lemma flatten_take_pages {α : Type} (xs : List α) (k : Nat) :
    ∀ n, ((List.range n).map (fun i => (xs.drop (i * k)).take k)).flatten =
      xs.take (n * k) := by
  intro n
  induction n with
  | zero => simp
  | succ m ih =>
    rw [List.range_succ, List.map_append, List.flatten_append, ih]
    simp only [List.map_cons, List.map_nil, List.flatten_cons,
      List.flatten_nil, List.append_nil]
    rw [Nat.succ_mul, List.take_add]

/-- `Math.ceil(len / k)` pages of size `k` cover all `len` items. -/
lemma length_le_ceil_mul (len k : Nat) (hk : 1 ≤ k) :
    len ≤ (⌈(len : ℚ) / (k : ℚ)⌉).toNat * k := by
  have hkq : (0 : ℚ) < (k : ℚ) := by exact_mod_cast hk
  have h1 : ((len : ℚ) / (k : ℚ)) ≤ (⌈(len : ℚ) / (k : ℚ)⌉ : ℚ) :=
    Int.le_ceil _
  rw [div_le_iff₀ hkq] at h1
  have h3 : (0 : ℤ) ≤ ⌈(len : ℚ) / (k : ℚ)⌉ := Int.ceil_nonneg (by positivity)
  have h4 : (len : ℚ) ≤ ((⌈(len : ℚ) / (k : ℚ)⌉.toNat : ℤ) : ℚ) * (k : ℚ) := by
    rw [Int.toNat_of_nonneg h3]
    exact h1
  exact_mod_cast h4

/-- Evaluation of the `GET /api/data` handler once the parsed page and
limit are positive. -/
lemma apiData_eq (store : List StoredReading) (pageRaw limitRaw : Option Int)
    (p l : Int) (hp : jsOrInt pageRaw 1 = p) (hl : jsOrInt limitRaw 50 = l)
    (hp1 : 1 ≤ p) (hl1 : 1 ≤ l) :
    apiData store pageRaw limitRaw =
      .ok { data := ((sortByTimestampDesc store).drop
              (((p - 1) * l).toNat)).take l.toNat
            page := p
            limit := l
            total := store.length
            pages := ⌈(store.length : ℚ) / (l : ℚ)⌉ } := by
  have hskip : ¬ ((p - 1) * l < 0) :=
    not_lt.mpr (mul_nonneg (by omega) (by omega))
  have habs : l.natAbs = l.toNat := by omega
  simp only [apiData, hp, hl, if_neg hskip, habs]

/-- C6: the paginated query defaults page and limit to 1 and 50 when the
query parameter is unspecified or non-numeric; for effective page `p ≥ 1`
and limit `l ≥ 1` it returns the descending-timestamp order with
`(p-1)*l` items skipped and at most `l` items returned; and concatenating
all `Math.ceil(total/limit)` pages in order reproduces the full store
sorted by timestamp descending. -/
theorem C6_pagination (store : List StoredReading)
    (pageRaw limitRaw : Option Int) :
    (pageRaw = none → jsOrInt pageRaw 1 = 1) ∧
    (limitRaw = none → jsOrInt limitRaw 50 = 50) ∧
    (∀ p l : Int, jsOrInt pageRaw 1 = p → jsOrInt limitRaw 50 = l →
      1 ≤ p → 1 ≤ l →
      ∃ res, apiData store pageRaw limitRaw = .ok res ∧
        res.page = p ∧ res.limit = l ∧ res.total = store.length ∧
        res.data = ((sortByTimestampDesc store).drop
          (((p - 1) * l).toNat)).take l.toNat ∧
        res.data.length ≤ l.toNat ∧
        res.data.Pairwise (fun a b => b.timestamp ≤ a.timestamp)) ∧
    (∀ k : Nat, 1 ≤ k →
      ((List.range (⌈(store.length : ℚ) / (k : ℚ)⌉.toNat)).map
          (fun (i : Nat) =>
            match apiData store (some ((i : Int) + 1)) (some (k : Int)) with
            | .ok res => res.data
            | .error _ => [])).flatten = sortByTimestampDesc store) := by
  refine ⟨fun h => by subst h; rfl, fun h => by subst h; rfl, ?_, ?_⟩
  · intro p l hp hl hp1 hl1
    refine ⟨_, apiData_eq store pageRaw limitRaw p l hp hl hp1 hl1,
      rfl, rfl, rfl, rfl, ?_, ?_⟩
    · exact le_trans (List.length_take_le _ _) (le_refl _)
    · exact List.Pairwise.sublist
        ((List.take_sublist _ _).trans (List.drop_sublist _ _))
        (pairwise_sortByTimestampDesc store)
  · intro k hk
    have hmap : ∀ i ∈ List.range (⌈(store.length : ℚ) / (k : ℚ)⌉.toNat),
        (match apiData store (some ((i : Int) + 1)) (some (k : Int)) with
          | .ok res => res.data
          | .error _ => []) =
        ((sortByTimestampDesc store).drop (i * k)).take k := by
      intro i _
      have hip : jsOrInt (some ((i : Int) + 1)) 1 = (i : Int) + 1 := by
        have hne : ¬ ((i : Int) + 1 = 0) := by omega
        simp [jsOrInt, hne]
      have hkl : jsOrInt (some (k : Int)) 50 = (k : Int) := by
        have hne : ¬ ((k : Int) = 0) := by omega
        simp [jsOrInt, hne]
      rw [apiData_eq store _ _ _ _ hip hkl (by omega) (by omega)]
      have h1 : ((i : Int) + 1 - 1) * (k : Int) = ((i * k : Nat) : Int) := by
        push_cast
        ring
      rw [h1]
      simp only [Int.toNat_ofNat]
    rw [List.map_congr_left hmap, flatten_take_pages]
    apply List.take_of_length_le
    rw [(sortByTimestampDesc_perm store).length_eq]
    exact length_le_ceil_mul store.length k hk

/-- Witness for C6: page 1 with limit 1 over the sample store, plus the
full-concatenation property at limit 1, plus the defaults. -/
theorem C6_pagination_witness :
    jsOrInt none 1 = 1 ∧
    jsOrInt none 50 = 50 ∧
    (∃ res, apiData sampleStore (some 1) (some 1) = .ok res ∧
      res.page = 1 ∧ res.limit = 1 ∧ res.total = sampleStore.length ∧
      res.data = ((sortByTimestampDesc sampleStore).drop
        ((((1 : Int) - 1) * 1).toNat)).take (1 : Int).toNat ∧
      res.data.length ≤ (1 : Int).toNat ∧
      res.data.Pairwise (fun a b => b.timestamp ≤ a.timestamp)) ∧
    ((List.range (⌈(sampleStore.length : ℚ) / ((1 : Nat) : ℚ)⌉.toNat)).map
        (fun (i : Nat) =>
          match apiData sampleStore (some ((i : Int) + 1))
              (some ((1 : Nat) : Int)) with
          | .ok res => res.data
          | .error _ => [])).flatten = sortByTimestampDesc sampleStore :=
  ⟨(C6_pagination sampleStore none none).1 rfl,
    (C6_pagination sampleStore none none).2.1 rfl,
    (C6_pagination sampleStore (some 1) (some 1)).2.2.1 1 1 rfl rfl
      (by norm_num) (by norm_num),
    (C6_pagination sampleStore (some 1) (some 1)).2.2.2 1 (by norm_num)⟩

/-- Witness for C9: 10 ≤ 100 and the severity at PM2.5 = 10 is at most
the severity at PM2.5 = 100. -/
theorem C9_calculateAQI_total_monotone_witness :
    ((10 : ℚ) ≤ 100) ∧
    aqiSeverity (calculateAQI 10) ≤ aqiSeverity (calculateAQI 100) :=
  ⟨by norm_num,
    C9_calculateAQI_total_monotone.2 10 100 (by norm_num)⟩
